import Mathlib

/-!
Shallow embedding of `src/app/core/models.py` from the
`katilin-izinde-backend` repository: a Django model layer for a
criminal-case record-keeping application, plus its user-account manager.

Conventions of the embedding:
* Django rows become Lean structures; nullable columns become `Option`.
* Timestamps are `Nat` (an abstract monotone clock); text is `String`.
* `PositiveIntegerField` (a non-negative integer column) becomes `Nat`.
* The database is a record of lists of rows; `on_delete` policies become
  explicit filter/map transformations of those lists, one per declared
  foreign key.
* Fallible operations return `Except`; the `ValueError` raised by
  `UserManager.create_user` is the spec's `InvalidInput`.
-/

/-- Error raised by the account subsystem; `invalidInput` models the
`ValueError` of `UserManager.create_user` (models.py:19). -/
inductive UserError where
  | invalidInput
deriving DecidableEq

/-- Row of the `User` model (models.py:36-45): `email`, `name`,
`is_active` (default `true`), `is_staff` (default `false`),
`is_superuser` (default `false`, from `PermissionsMixin`), and the stored
credential. Credential hashing is performed by the framework
(`set_password`); the embedding stores the supplied credential value
abstractly, since no claim depends on the hash itself. -/
structure UserRow where
  email : String
  name : String
  is_active : Bool
  is_staff : Bool
  is_superuser : Bool
  password : Option String
deriving DecidableEq

/-- Modelled from the spec: the framework email-normalization helper
(`BaseUserManager.normalize_email`) is third-party code treated as an
external interface (spec section 6); per section 4.1 the portion of the
email after the at-sign is lower-cased and the local part is preserved as
given. On the character list: characters before the last at-sign are kept,
characters after it are lower-cased; a string with no at-sign is returned
unchanged. -/
def normChars : List Char → List Char
  | [] => []
  | c :: rest =>
    if ('@' ∈ rest) then c :: normChars rest
    else if c = '@' then c :: rest.map Char.toLower
    else c :: rest

/-- Modelled from the spec: email normalization on `String` (see
`normChars`). -/
def normalize_email (e : String) : String :=
  String.mk (normChars e.data)

/-- Persistent user store: the current rows together with the ordered log
of every persisted write (each `save` call appends the saved state to the
log). Uniqueness of `email` is enforced by the external storage layer and
is not modelled. -/
structure UserStore where
  rows : List UserRow
  log : List UserRow
deriving DecidableEq

/-- Model of `user.save(...)`: upsert keyed by `email` (the identity
field, models.py:45), and record the persisted state in the write log. -/
def save_user (st : UserStore) (u : UserRow) : UserStore :=
  { rows :=
      if st.rows.any (fun r => r.email == u.email) then
        st.rows.map (fun r => if r.email == u.email then u else r)
      else st.rows ++ [u],
    log := st.log ++ [u] }

/-- Embedding of `UserManager.create_user` (models.py:16-24): raise
`ValueError` when the email is absent (`None`) or empty (Python falsiness
of a string), otherwise build the user with the normalized email and the
field defaults of the `User` model, store the credential, and save. -/
def create_user (st : UserStore) (email : Option String)
    (password : Option String) : Except UserError (UserRow × UserStore) :=
  match email with
  | none => .error .invalidInput
  | some e =>
    if e = "" then .error .invalidInput
    else
      let u : UserRow :=
        { email := normalize_email e, name := "", is_active := true,
          is_staff := false, is_superuser := false, password := password }
      .ok (u, save_user st u)

/-- Embedding of `UserManager.create_superuser` (models.py:26-33): call
`create_user` (which already saves the row once), then set `is_staff` and
`is_superuser` and save again. -/
def create_superuser (st : UserStore) (email : String) (password : String) :
    Except UserError (UserRow × UserStore) :=
  match create_user st (some email) (some password) with
  | .error err => .error err
  | .ok (u, st1) =>
    let u2 := { u with is_staff := true, is_superuser := true }
    .ok (u2, save_user st1 u2)

/-- Staff/superuser flags of every state persisted by a concrete
`create_superuser` run starting from an empty store. -/
def superuser_save_flags : Option (List (Bool × Bool)) :=
  match create_superuser ⟨[], []⟩ "a@b.c" "pw" with
  | .ok (_, st) => some (st.log.map (fun v => (v.is_staff, v.is_superuser)))
  | .error _ => none

/-- Common fields contributed by the abstract `BaseModel`
(models.py:51-63): `is_active` (default `true`), `created_at`
(`auto_now_add`: set once at insert), `updated_at` (`auto_now`: refreshed
on every save). -/
structure BaseFields where
  is_active : Bool
  created_at : Nat
  updated_at : Nat
deriving DecidableEq

/-- Insert at time `t`: `auto_now_add` sets `created_at := t` and
`auto_now` sets `updated_at := t` in the same save. -/
def createBase (t : Nat) : BaseFields :=
  { is_active := true, created_at := t, updated_at := t }

/-- Subsequent save at time `t`: `auto_now` refreshes `updated_at`;
`auto_now_add` leaves `created_at` untouched. -/
def touchBase (b : BaseFields) (t : Nat) : BaseFields :=
  { b with updated_at := t }

/-- Apply a sequence of saves, in order of their timestamps. -/
def saveAll (b : BaseFields) (ts : List Nat) : BaseFields :=
  ts.foldl touchBase b

/-- Row of `Victim` (models.py:69-83). -/
structure VictimRow where
  id : Nat
  base : BaseFields
  name : String
  age : Nat
  description : Option String
  time_of_death : Option Nat
  cause_of_death : Option String
deriving DecidableEq

/-- Row of `Case` (models.py:89-109); `victim` is the nullable one-to-one
reference (models.py:100-106). The Django keyword `case` is reserved in
Lean, so the foreign-key column appears as `case_id` throughout. -/
structure CaseRow where
  id : Nat
  base : BaseFields
  title : String
  description : Option String
  victim : Option Nat
deriving DecidableEq

/-- Row of `Location` (models.py:115-130); `case_id` is its required
`Case` foreign key (CASCADE, models.py:120-124). -/
structure LocationRow where
  id : Nat
  base : BaseFields
  case_id : Nat
  name : String
  description : Option String
  is_crime_scene : Bool
deriving DecidableEq

/-- Row of `Suspect` (models.py:136-156); `case_id` is CASCADE
(models.py:142-146). -/
structure SuspectRow where
  id : Nat
  base : BaseFields
  case_id : Nat
  name : String
  age : Nat
  relation_to_victim : Option String
  description : Option String
  alibi : Option String
  clothing_description : Option String
deriving DecidableEq

/-- Row of `Motive` (models.py:162-176); `suspect` is CASCADE
(models.py:167-171); `motive_description` is nullable (models.py:172). -/
structure MotiveRow where
  id : Nat
  base : BaseFields
  suspect : Nat
  motive_description : Option String
deriving DecidableEq

/-- Row of `Testimony` (models.py:182-197); `suspect` is CASCADE
(models.py:188-192). -/
structure TestimonyRow where
  id : Nat
  base : BaseFields
  suspect : Nat
  given_at : Nat
  testimony : Option String
deriving DecidableEq

/-- Row of `Clue` (models.py:203-231); `case_id` is CASCADE
(models.py:210-214), `location` is CASCADE (models.py:215-219),
`related_suspect` is nullable SET_NULL (models.py:222-228). -/
structure ClueRow where
  id : Nat
  base : BaseFields
  case_id : Nat
  location : Nat
  description : Option String
  found_at : Nat
  related_suspect : Option Nat
deriving DecidableEq

/-- Row of `Evidence` (models.py:237-266); `case_id` is CASCADE
(models.py:243-247), `obtained_from` is nullable SET_NULL
(models.py:249-255), `related_suspect` is nullable SET_NULL
(models.py:257-263). -/
structure EvidenceRow where
  id : Nat
  base : BaseFields
  case_id : Nat
  description : String
  obtained_from : Option Nat
  date_obtained : Nat
  related_suspect : Option Nat
deriving DecidableEq

/-- Row of `Message` (models.py:272-296); `case_id` is CASCADE
(models.py:278-282), `related_suspect` is nullable SET_NULL
(models.py:287-293). -/
structure MessageRow where
  id : Nat
  base : BaseFields
  case_id : Nat
  sender : Option String
  receiver : Option String
  timestamp : Nat
  content : String
  related_suspect : Option Nat
deriving DecidableEq

/-- Row of `CallRecord` (models.py:302-330); `case_id` is CASCADE
(models.py:308-312), `related_suspect` is nullable SET_NULL
(models.py:321-326). -/
structure CallRecordRow where
  id : Nat
  base : BaseFields
  case_id : Nat
  caller : Option String
  callee : Option String
  timestamp : Nat
  duration : Option Nat
  related_suspect : Option Nat
deriving DecidableEq

/-- The whole relational state: one table of rows per model. -/
structure DB where
  victims : List VictimRow
  cases : List CaseRow
  locations : List LocationRow
  suspects : List SuspectRow
  motives : List MotiveRow
  testimonies : List TestimonyRow
  clues : List ClueRow
  evidences : List EvidenceRow
  messages : List MessageRow
  calls : List CallRecordRow
deriving DecidableEq

/-- Whether an optional foreign key hits one of the given ids. -/
def optMem (o : Option Nat) (ids : List Nat) : Bool :=
  match o with
  | some x => ids.contains x
  | none => false

/-- SET_NULL update of `Clue.related_suspect` for suspect ids in `sids`
(models.py:222-228): only the reference changes, every other column is
kept. -/
def clueClearSuspect (sids : List Nat) (c : ClueRow) : ClueRow :=
  if optMem c.related_suspect sids then { c with related_suspect := none } else c

/-- SET_NULL update of `Evidence.related_suspect` (models.py:257-263). -/
def evidenceClearSuspect (sids : List Nat) (e : EvidenceRow) : EvidenceRow :=
  if optMem e.related_suspect sids then { e with related_suspect := none } else e

/-- SET_NULL update of `Evidence.obtained_from` for location ids in
`lids` (models.py:249-255). -/
def evidenceClearLocation (lids : List Nat) (e : EvidenceRow) : EvidenceRow :=
  if optMem e.obtained_from lids then { e with obtained_from := none } else e

/-- SET_NULL update of `Message.related_suspect` (models.py:287-293). -/
def messageClearSuspect (sids : List Nat) (m : MessageRow) : MessageRow :=
  if optMem m.related_suspect sids then { m with related_suspect := none } else m

/-- SET_NULL update of `CallRecord.related_suspect` (models.py:321-326). -/
def callClearSuspect (sids : List Nat) (r : CallRecordRow) : CallRecordRow :=
  if optMem r.related_suspect sids then { r with related_suspect := none } else r

/-- Deletion of a `Suspect` row, applying the declared `on_delete`
policies of every foreign key targeting `Suspect`: `Motive.suspect` and
`Testimony.suspect` are CASCADE (models.py:167-171, 188-192), while
`related_suspect` on `Clue`, `Evidence`, `Message` and `CallRecord` is
SET_NULL (models.py:222-228, 257-263, 287-293, 321-326). -/
def deleteSuspect (db : DB) (sid : Nat) : DB :=
  { db with
    suspects := db.suspects.filter (fun s => s.id != sid),
    motives := db.motives.filter (fun m => m.suspect != sid),
    testimonies := db.testimonies.filter (fun t => t.suspect != sid),
    clues := db.clues.map (clueClearSuspect [sid]),
    evidences := db.evidences.map (evidenceClearSuspect [sid]),
    messages := db.messages.map (messageClearSuspect [sid]),
    calls := db.calls.map (callClearSuspect [sid]) }

/-- Deletion of a `Location` row: `Clue.location` is CASCADE
(models.py:215-219), so every clue referencing it is deleted;
`Evidence.obtained_from` is SET_NULL (models.py:249-255), so the
reference is cleared and the evidence survives. -/
def deleteLocation (db : DB) (lid : Nat) : DB :=
  { db with
    locations := db.locations.filter (fun l => l.id != lid),
    clues := db.clues.filter (fun c => c.location != lid),
    evidences := db.evidences.map (evidenceClearLocation [lid]) }

/-- Deletion of a `Case` row, with the transitive closure of the declared
`on_delete` policies: every `Location`, `Suspect`, `Clue`, `Evidence`,
`Message` and `CallRecord` whose `case` foreign key hits it is CASCADE
deleted (models.py:120-124, 142-146, 210-214, 243-247, 278-282, 308-312);
the deleted locations cascade to their clues (models.py:215-219) and null
out `Evidence.obtained_from` on surviving evidences (models.py:249-255);
the deleted suspects cascade to their motives and testimonies
(models.py:167-171, 188-192) and null out `related_suspect` on surviving
clues, evidences, messages and call records. -/
def deleteCase (db : DB) (cid : Nat) : DB :=
  let lids := (db.locations.filter (fun l => l.case_id == cid)).map (fun l => l.id)
  let sids := (db.suspects.filter (fun s => s.case_id == cid)).map (fun s => s.id)
  { db with
    cases := db.cases.filter (fun k => k.id != cid),
    locations := db.locations.filter (fun l => l.case_id != cid),
    suspects := db.suspects.filter (fun s => s.case_id != cid),
    motives := db.motives.filter (fun m => !(sids.contains m.suspect)),
    testimonies := db.testimonies.filter (fun t => !(sids.contains t.suspect)),
    clues :=
      ((db.clues.filter (fun c => c.case_id != cid)).filter
        (fun c => !(lids.contains c.location))).map (clueClearSuspect sids),
    evidences :=
      ((db.evidences.filter (fun e => e.case_id != cid)).map
        (evidenceClearLocation lids)).map (evidenceClearSuspect sids),
    messages := (db.messages.filter (fun m => m.case_id != cid)).map
      (messageClearSuspect sids),
    calls := (db.calls.filter (fun r => r.case_id != cid)).map
      (callClearSuspect sids) }

/-- Lookup of a suspect row by id (the object behind `self.suspect` on a
`Motive`). -/
def findSuspect (db : DB) (sid : Nat) : Option SuspectRow :=
  db.suspects.find? (fun s => s.id == sid)

/-- Embedding of `Motive.__str__` (models.py:174-176). The Python body
subscripts `self.motive_description[:50]`; when the nullable column holds
`None` the subscript raises `TypeError`, which this embedding renders as
`none` (the error branch). Python slicing `d[:50]` keeps the first
`min 50 (length d)` characters, i.e. `List.take 50` on the character
list. A broken `suspect` foreign key (impossible under referential
integrity, `suspect` being a required column) also yields `none`. -/
def motive_str (db : DB) (m : MotiveRow) : Option String :=
  match findSuspect db m.suspect, m.motive_description with
  | some s, some d =>
    some ("Motive for " ++ s.name ++ ": " ++ String.mk (d.data.take 50))
  | _, _ => none

/-- Concrete user as first persisted by `create_superuser` (default
flags). -/
def u0c : UserRow :=
  { email := "x@y", name := "", is_active := true, is_staff := false,
    is_superuser := false, password := some "pw" }

/-- Concrete user as finally persisted by `create_superuser` (flags
raised). -/
def u2c : UserRow :=
  { email := "x@y", name := "", is_active := true, is_staff := true,
    is_superuser := true, password := some "pw" }

/-- Example base fields for concrete rows. -/
def b0 : BaseFields := { is_active := true, created_at := 0, updated_at := 0 }

/-- Example case 1 (will be deleted in witnesses). -/
def exCase1 : CaseRow :=
  { id := 1, base := b0, title := "Manor", description := none, victim := none }

/-- Example case 2 (survives). -/
def exCase2 : CaseRow :=
  { id := 2, base := b0, title := "Dock", description := none, victim := none }

/-- Location 1 of case 1. -/
def loc1 : LocationRow :=
  { id := 1, base := b0, case_id := 1, name := "Cellar", description := none,
    is_crime_scene := true }

/-- Location 2 of case 2. -/
def loc2 : LocationRow :=
  { id := 2, base := b0, case_id := 2, name := "Pier", description := none,
    is_crime_scene := false }

/-- Suspect 5 of case 1. -/
def sus5 : SuspectRow :=
  { id := 5, base := b0, case_id := 1, name := "Ali", age := 30,
    relation_to_victim := none, description := none, alibi := none,
    clothing_description := none }

/-- Suspect 6 of case 2. -/
def sus6 : SuspectRow :=
  { id := 6, base := b0, case_id := 2, name := "Veli", age := 40,
    relation_to_victim := none, description := none, alibi := none,
    clothing_description := none }

/-- Motive of suspect 5. -/
def mot50 : MotiveRow :=
  { id := 50, base := b0, suspect := 5, motive_description := some "greed" }

/-- Motive of suspect 6. -/
def mot51 : MotiveRow :=
  { id := 51, base := b0, suspect := 6, motive_description := some "envy" }

/-- Motive of suspect 6 with an absent description. -/
def mot52 : MotiveRow :=
  { id := 52, base := b0, suspect := 6, motive_description := none }

/-- Testimony of suspect 5. -/
def tst60 : TestimonyRow :=
  { id := 60, base := b0, suspect := 5, given_at := 0, testimony := none }

/-- Testimony of suspect 6. -/
def tst61 : TestimonyRow :=
  { id := 61, base := b0, suspect := 6, given_at := 0, testimony := none }

/-- Clue of case 1 at location 1, pointing at suspect 5. -/
def clue10 : ClueRow :=
  { id := 10, base := b0, case_id := 1, location := 1, description := none,
    found_at := 0, related_suspect := some 5 }

/-- Clue of case 2 at location 2, pointing at suspect 6. -/
def clue11 : ClueRow :=
  { id := 11, base := b0, case_id := 2, location := 2, description := none,
    found_at := 0, related_suspect := some 6 }

/-- Evidence of case 1 obtained from location 1. -/
def ev20 : EvidenceRow :=
  { id := 20, base := b0, case_id := 1, description := "knife",
    obtained_from := some 1, date_obtained := 0, related_suspect := some 5 }

/-- Evidence of case 2 obtained from location 2. -/
def ev21 : EvidenceRow :=
  { id := 21, base := b0, case_id := 2, description := "rope",
    obtained_from := some 2, date_obtained := 0, related_suspect := some 6 }

/-- Message of case 1 pointing at suspect 5. -/
def msg30 : MessageRow :=
  { id := 30, base := b0, case_id := 1, sender := none, receiver := none,
    timestamp := 0, content := "meet me", related_suspect := some 5 }

/-- Message of case 2 pointing at suspect 6. -/
def msg31 : MessageRow :=
  { id := 31, base := b0, case_id := 2, sender := none, receiver := none,
    timestamp := 0, content := "done", related_suspect := some 6 }

/-- Call record of case 1 pointing at suspect 5. -/
def call40 : CallRecordRow :=
  { id := 40, base := b0, case_id := 1, caller := none, callee := none,
    timestamp := 0, duration := some 60, related_suspect := some 5 }

/-- Call record of case 2 pointing at suspect 6. -/
def call41 : CallRecordRow :=
  { id := 41, base := b0, case_id := 2, caller := none, callee := none,
    timestamp := 0, duration := some 30, related_suspect := some 6 }

/-- Example database with two cases and one row of each kind per case. -/
def exDB : DB :=
  { victims := [],
    cases := [exCase1, exCase2],
    locations := [loc1, loc2],
    suspects := [sus5, sus6],
    motives := [mot50, mot51, mot52],
    testimonies := [tst60, tst61],
    clues := [clue10, clue11],
    evidences := [ev20, ev21],
    messages := [msg30, msg31],
    calls := [call40, call41] }

theorem optMem_false_of_ne {o : Option Nat} {x : Nat} (h : o ≠ some x) :
    optMem o [x] = false := by
  unfold optMem
  cases ho : o with
  | none => rfl
  | some y =>
    have hy : y ≠ x := fun he => h (by rw [ho, he])
    have hb : (y == x) = false := beq_eq_false_iff_ne.2 hy
    simp [List.contains, List.elem, hb]

theorem optMem_true {x : Nat} : optMem (some x) [x] = true := by
  simp [optMem, List.contains, List.elem]

theorem clueClearSuspect_eq_self {sids : List Nat} {c : ClueRow}
    (h : optMem c.related_suspect sids = false) :
    clueClearSuspect sids c = c := by
  simp [clueClearSuspect, h]

theorem clueClearSuspect_clears {sids : List Nat} {c : ClueRow}
    (h : optMem c.related_suspect sids = true) :
    clueClearSuspect sids c = { c with related_suspect := none } := by
  simp [clueClearSuspect, h]

theorem evidenceClearSuspect_eq_self {sids : List Nat} {e : EvidenceRow}
    (h : optMem e.related_suspect sids = false) :
    evidenceClearSuspect sids e = e := by
  simp [evidenceClearSuspect, h]

theorem evidenceClearSuspect_clears {sids : List Nat} {e : EvidenceRow}
    (h : optMem e.related_suspect sids = true) :
    evidenceClearSuspect sids e = { e with related_suspect := none } := by
  simp [evidenceClearSuspect, h]

theorem evidenceClearLocation_eq_self {lids : List Nat} {e : EvidenceRow}
    (h : optMem e.obtained_from lids = false) :
    evidenceClearLocation lids e = e := by
  simp [evidenceClearLocation, h]

theorem evidenceClearLocation_clears {lids : List Nat} {e : EvidenceRow}
    (h : optMem e.obtained_from lids = true) :
    evidenceClearLocation lids e = { e with obtained_from := none } := by
  simp [evidenceClearLocation, h]

theorem messageClearSuspect_eq_self {sids : List Nat} {m : MessageRow}
    (h : optMem m.related_suspect sids = false) :
    messageClearSuspect sids m = m := by
  simp [messageClearSuspect, h]

theorem messageClearSuspect_clears {sids : List Nat} {m : MessageRow}
    (h : optMem m.related_suspect sids = true) :
    messageClearSuspect sids m = { m with related_suspect := none } := by
  simp [messageClearSuspect, h]

theorem callClearSuspect_eq_self {sids : List Nat} {r : CallRecordRow}
    (h : optMem r.related_suspect sids = false) :
    callClearSuspect sids r = r := by
  simp [callClearSuspect, h]

theorem callClearSuspect_clears {sids : List Nat} {r : CallRecordRow}
    (h : optMem r.related_suspect sids = true) :
    callClearSuspect sids r = { r with related_suspect := none } := by
  simp [callClearSuspect, h]

theorem clueClearSuspect_case_id (sids : List Nat) (c : ClueRow) :
    (clueClearSuspect sids c).case_id = c.case_id := by
  unfold clueClearSuspect
  split <;> rfl

theorem evidenceClearSuspect_case_id (sids : List Nat) (e : EvidenceRow) :
    (evidenceClearSuspect sids e).case_id = e.case_id := by
  unfold evidenceClearSuspect
  split <;> rfl

theorem evidenceClearLocation_case_id (lids : List Nat) (e : EvidenceRow) :
    (evidenceClearLocation lids e).case_id = e.case_id := by
  unfold evidenceClearLocation
  split <;> rfl

theorem messageClearSuspect_case_id (sids : List Nat) (m : MessageRow) :
    (messageClearSuspect sids m).case_id = m.case_id := by
  unfold messageClearSuspect
  split <;> rfl

theorem callClearSuspect_case_id (sids : List Nat) (r : CallRecordRow) :
    (callClearSuspect sids r).case_id = r.case_id := by
  unfold callClearSuspect
  split <;> rfl

theorem nat_contains_iff (ids : List Nat) (x : Nat) :
    ids.contains x = true ↔ x ∈ ids := by
  induction ids with
  | nil => simp [List.contains, List.elem]
  | cons a as ih =>
    simp only [List.contains, List.elem] at ih ⊢
    cases hax : x == a with
    | true => simp [beq_iff_eq.1 hax]
    | false =>
      have : x ≠ a := fun he => by simp [he] at hax
      simp [this, ih]

theorem mem_save_user_rows (st : UserStore) (u : UserRow) :
    u ∈ (save_user st u).rows := by
  show u ∈ (if st.rows.any (fun r => r.email == u.email) then
      st.rows.map (fun r => if r.email == u.email then u else r)
    else st.rows ++ [u])
  split
  · next h =>
    rw [List.any_eq_true] at h
    obtain ⟨r, hr, hre⟩ := h
    exact List.mem_map.2 ⟨r, hr, by simp [hre]⟩
  · simp

theorem normChars_append (l d : List Char) (hd : '@' ∉ d) :
    normChars (l ++ '@' :: d) = l ++ '@' :: d.map Char.toLower := by
  induction l with
  | nil => simp [normChars, hd]
  | cons c l ih =>
    have hmem : '@' ∈ l ++ '@' :: d := by simp
    simp [normChars, hmem, ih]

theorem saveAll_created_at (b : BaseFields) (ts : List Nat) :
    (saveAll b ts).created_at = b.created_at := by
  induction ts generalizing b with
  | nil => rfl
  | cons t ts ih => exact (ih (touchBase b t)).trans rfl

theorem saveAll_updated_at (b : BaseFields) (ts : List Nat) :
    (saveAll b ts).updated_at = ts.getLastD b.updated_at := by
  induction ts generalizing b with
  | nil => rfl
  | cons t ts ih =>
    show (saveAll (touchBase b t) ts).updated_at = _
    rw [ih, List.getLastD_cons]
    rfl

theorem le_getLastD {a : Nat} {l : List Nat}
    (h : List.Chain (· ≤ ·) a l) : a ≤ l.getLastD a := by
  induction l generalizing a with
  | nil => simp
  | cons b l ih =>
    cases h with
    | cons hab hc =>
      rw [List.getLastD_cons]
      exact le_trans hab (ih hc)

theorem getLastD_append_mono (a : Nat) (l1 l2 : List Nat)
    (h : List.Chain (· ≤ ·) a (l1 ++ l2)) :
    l1.getLastD a ≤ (l1 ++ l2).getLastD a := by
  induction l1 generalizing a with
  | nil => exact le_getLastD h
  | cons b l1 ih =>
    cases h with
    | cons hab hc =>
      rw [List.getLastD_cons, List.cons_append, List.getLastD_cons]
      exact ih b hc

/-- C3: `create_user` fails with `InvalidInput` if and only if the
supplied email is absent or empty; for every non-empty email it succeeds,
persists the user (the row is stored and exactly one write is appended to
the log) and does not raise `InvalidInput`. -/
theorem create_user_invalid_input_iff (st : UserStore) (email : Option String)
    (p : Option String) :
    (create_user st email p = .error .invalidInput ↔
      email = none ∨ email = some "") ∧
    (∀ e : String, email = some e → e ≠ "" →
      ∃ u st2, create_user st email p = .ok (u, st2) ∧ u ∈ st2.rows ∧
        st2.log = st.log ++ [u]) := by
  constructor
  · constructor
    · intro h
      match email with
      | none => exact Or.inl rfl
      | some e =>
        by_cases he : e = ""
        · exact Or.inr (by rw [he])
        · simp [create_user, he] at h
    · intro h
      rcases h with h | h <;> subst h <;> simp [create_user]
  · intro e he hne
    subst he
    refine ⟨{ email := normalize_email e, name := "", is_active := true,
              is_staff := false, is_superuser := false, password := p },
            save_user st _, ?_, mem_save_user_rows st _, rfl⟩
    simp [create_user, hne]

/-- Witness for C3: the empty email is rejected with `InvalidInput`, the
email "x@y" is accepted and persisted. -/
theorem create_user_invalid_input_iff_witness :
    (create_user ⟨[], []⟩ (some "") none = .error .invalidInput) ∧
    (∃ u st2, create_user ⟨[], []⟩ (some "x@y") none = .ok (u, st2) ∧
      u ∈ st2.rows ∧ st2.log = (UserStore.mk [] []).log ++ [u]) := by
  constructor
  · exact (create_user_invalid_input_iff ⟨[], []⟩ (some "") none).1.2
      (Or.inr rfl)
  · exact (create_user_invalid_input_iff ⟨[], []⟩ (some "x@y") none).2
      "x@y" rfl (by decide)

/-- C4: for every accepted email of the shape local-part, at-sign, domain
(no at-sign inside the domain), the stored email equals the input with
the domain lower-cased and the local part preserved
character-for-character. The normalization helper is framework code,
modelled from the spec (see `normChars`). -/
theorem create_user_normalizes_email (st : UserStore) (p : Option String)
    (l d : List Char) (hd : '@' ∉ d) :
    ∃ u st2,
      create_user st (some (String.mk (l ++ '@' :: d))) p = .ok (u, st2) ∧
      u.email = String.mk (l ++ '@' :: d.map Char.toLower) := by
  have hne : String.mk (l ++ '@' :: d) ≠ "" := by
    intro h
    have h3 := congrArg String.data h
    simp at h3
  have hcu : create_user st (some (String.mk (l ++ '@' :: d))) p =
      .ok ({ email := normalize_email (String.mk (l ++ '@' :: d)), name := "",
             is_active := true, is_staff := false, is_superuser := false,
             password := p },
           save_user st
             { email := normalize_email (String.mk (l ++ '@' :: d)),
               name := "", is_active := true, is_staff := false,
               is_superuser := false, password := p }) := by
    simp [create_user, hne]
  refine ⟨_, _, hcu, ?_⟩
  show normalize_email (String.mk (l ++ '@' :: d)) = _
  unfold normalize_email
  show String.mk (normChars (l ++ '@' :: d)) = _
  rw [normChars_append l d hd]

/-- Witness for C4: input Jane at EXAMPLE.com is stored as Jane at
example.com. -/
theorem create_user_normalizes_email_witness :
    ∃ u st2,
      create_user ⟨[], []⟩
          (some (String.mk ("Jane".data ++ '@' :: "EXAMPLE.com".data))) none =
        .ok (u, st2) ∧
      u.email =
        String.mk ("Jane".data ++ '@' :: ("EXAMPLE.com".data).map Char.toLower) :=
  create_user_normalizes_email ⟨[], []⟩ none "Jane".data "EXAMPLE.com".data
    (by decide)

/-- C9: every account returned by `create_superuser` has
`is_staff = true` and `is_superuser = true`. -/
theorem create_superuser_flags (st : UserStore) (email pw : String)
    (u : UserRow) (st2 : UserStore)
    (h : create_superuser st email pw = .ok (u, st2)) :
    u.is_staff = true ∧ u.is_superuser = true := by
  by_cases he : email = ""
  · simp [create_superuser, create_user, he] at h
  · simp only [create_superuser, create_user, he, if_false, reduceCtorEq,
      Except.ok.injEq, Prod.mk.injEq] at h
    obtain ⟨h1, h2⟩ := h
    subst h1
    exact ⟨rfl, rfl⟩

/-- Witness for C9 at a concrete run of `create_superuser`. -/
theorem create_superuser_flags_witness :
    u2c.is_staff = true ∧ u2c.is_superuser = true :=
  create_superuser_flags ⟨[], []⟩ "x@y" "pw" u2c ⟨[u2c], [u0c, u2c]⟩
    (by rfl)

/-- C5 counterexample: a concrete `create_superuser` run persists two
states, and the first persisted state has `is_staff = false` and
`is_superuser = false`; this refutes the claim that every write
operation, superuser-creation included, is a single atomic storage
transaction that never persists the account with either flag false
(the first of the two saves in models.py:22 and models.py:31 does exactly
that). -/
theorem create_superuser_intermediate_state_cex :
    superuser_save_flags = some [(false, false), (true, true)] := by rfl

/-- C5 (amended): `create_user` is a single write, but `create_superuser`
performs two persisted writes: the first stores the account with
`is_staff = false` and `is_superuser = false` (the defaults written by
`create_user`), the second stores it with both flags true; each write is
individually atomic, but an intermediate persisted state with both flags
false exists. -/
theorem create_superuser_two_writes (st : UserStore) (email pw : String)
    (u : UserRow) (st2 : UserStore)
    (h : create_superuser st email pw = .ok (u, st2)) :
    st2.log = st.log ++
      [{ u with is_staff := false, is_superuser := false }, u] ∧
    u.is_staff = true ∧ u.is_superuser = true := by
  by_cases he : email = ""
  · simp [create_superuser, create_user, he] at h
  · simp only [create_superuser, create_user, he, if_false, reduceCtorEq,
      Except.ok.injEq, Prod.mk.injEq] at h
    obtain ⟨h1, h2⟩ := h
    subst h1
    subst h2
    refine ⟨?_, rfl, rfl⟩
    show (st.log ++ [_]) ++ [_] = _
    rw [List.append_assoc]
    rfl

/-- Witness for C5 (amended) at a concrete run of `create_superuser`. -/
theorem create_superuser_two_writes_witness :
    (UserStore.mk [u2c] [u0c, u2c]).log = (UserStore.mk [] []).log ++
      [{ u2c with is_staff := false, is_superuser := false }, u2c] ∧
    u2c.is_staff = true ∧ u2c.is_superuser = true :=
  create_superuser_two_writes ⟨[], []⟩ "x@y" "pw" u2c ⟨[u2c], [u0c, u2c]⟩
    (by rfl)

/-- C1 counterexample: in `exDB`, clue 11 references location 2; after
`deleteLocation exDB 2` the clue is gone entirely (its `location` key is
declared `on_delete=CASCADE`, models.py:215-219), refuting the claim that
the Clue survives with its location reference set to absent. -/
theorem location_delete_cascades_clue_cex :
    clue11 ∈ exDB.clues ∧ clue11.location = 2 ∧
    clue11 ∉ (deleteLocation exDB 2).clues ∧
    (deleteLocation exDB 2).clues = [clue10] := by decide

/-- C1 (amended): deleting a Location cascade-deletes every Clue that
references it (the Clue does not survive, models.py:215-219), while an
Evidence whose `obtained_from` references it survives with only that
reference set to absent and every other field unchanged
(models.py:249-255). -/
theorem location_delete_semantics (db : DB) (lid : Nat) :
    (∀ l ∈ (deleteLocation db lid).locations, l.id ≠ lid) ∧
    (∀ c ∈ (deleteLocation db lid).clues, c.location ≠ lid) ∧
    (∀ c ∈ db.clues, c.location = lid → c ∉ (deleteLocation db lid).clues) ∧
    (∀ e ∈ db.evidences, e.obtained_from = some lid →
      { e with obtained_from := none } ∈ (deleteLocation db lid).evidences) ∧
    (∀ e ∈ db.evidences, e.obtained_from ≠ some lid →
      e ∈ (deleteLocation db lid).evidences) := by
  refine ⟨?_, ?_, ?_, ?_, ?_⟩
  · intro l hl
    have h2 := (List.mem_filter.1 hl).2
    simpa using h2
  · intro c hc
    have h2 := (List.mem_filter.1 hc).2
    simpa using h2
  · intro c hc hloc hmem
    have h2 := (List.mem_filter.1 hmem).2
    simp [hloc] at h2
  · intro e he hof
    refine List.mem_map.2 ⟨e, he, ?_⟩
    rw [evidenceClearLocation_clears (by rw [hof]; exact optMem_true)]
  · intro e he hof
    refine List.mem_map.2 ⟨e, he, ?_⟩
    exact evidenceClearLocation_eq_self (optMem_false_of_ne hof)

/-- Witness for C1 (amended): deleting location 2 of `exDB` removes
clue 11 and clears the `obtained_from` reference of evidence 21. -/
theorem location_delete_semantics_witness :
    clue11 ∉ (deleteLocation exDB 2).clues ∧
    { ev21 with obtained_from := none } ∈ (deleteLocation exDB 2).evidences ∧
    ev20 ∈ (deleteLocation exDB 2).evidences := by
  refine ⟨?_, ?_, ?_⟩
  · exact (location_delete_semantics exDB 2).2.2.1 clue11 (by decide) (by decide)
  · exact (location_delete_semantics exDB 2).2.2.2.1 ev21 (by decide) (by decide)
  · exact (location_delete_semantics exDB 2).2.2.2.2 ev20 (by decide) (by decide)

/-- C7: deleting a Suspect removes the suspect row, and every Clue,
Evidence, Message and CallRecord whose `related_suspect` referenced it
stays in existence with only that reference cleared to absent and every
other field unchanged (`on_delete=SET_NULL`, models.py:222-228, 257-263,
287-293, 321-326); records not referencing it are untouched. -/
theorem suspect_delete_set_null (db : DB) (sid : Nat) :
    (∀ s ∈ (deleteSuspect db sid).suspects, s.id ≠ sid) ∧
    (∀ c ∈ db.clues, c.related_suspect = some sid →
      { c with related_suspect := none } ∈ (deleteSuspect db sid).clues) ∧
    (∀ c ∈ db.clues, c.related_suspect ≠ some sid →
      c ∈ (deleteSuspect db sid).clues) ∧
    (∀ e ∈ db.evidences, e.related_suspect = some sid →
      { e with related_suspect := none } ∈ (deleteSuspect db sid).evidences) ∧
    (∀ e ∈ db.evidences, e.related_suspect ≠ some sid →
      e ∈ (deleteSuspect db sid).evidences) ∧
    (∀ m ∈ db.messages, m.related_suspect = some sid →
      { m with related_suspect := none } ∈ (deleteSuspect db sid).messages) ∧
    (∀ m ∈ db.messages, m.related_suspect ≠ some sid →
      m ∈ (deleteSuspect db sid).messages) ∧
    (∀ r ∈ db.calls, r.related_suspect = some sid →
      { r with related_suspect := none } ∈ (deleteSuspect db sid).calls) ∧
    (∀ r ∈ db.calls, r.related_suspect ≠ some sid →
      r ∈ (deleteSuspect db sid).calls) := by
  refine ⟨?_, ?_, ?_, ?_, ?_, ?_, ?_, ?_, ?_⟩
  · intro s hs
    have h2 := (List.mem_filter.1 hs).2
    simpa using h2
  · intro c hc hr
    refine List.mem_map.2 ⟨c, hc, ?_⟩
    rw [clueClearSuspect_clears (by rw [hr]; exact optMem_true)]
  · intro c hc hr
    exact List.mem_map.2 ⟨c, hc, clueClearSuspect_eq_self (optMem_false_of_ne hr)⟩
  · intro e he hr
    refine List.mem_map.2 ⟨e, he, ?_⟩
    rw [evidenceClearSuspect_clears (by rw [hr]; exact optMem_true)]
  · intro e he hr
    exact List.mem_map.2 ⟨e, he, evidenceClearSuspect_eq_self (optMem_false_of_ne hr)⟩
  · intro m hm hr
    refine List.mem_map.2 ⟨m, hm, ?_⟩
    rw [messageClearSuspect_clears (by rw [hr]; exact optMem_true)]
  · intro m hm hr
    exact List.mem_map.2 ⟨m, hm, messageClearSuspect_eq_self (optMem_false_of_ne hr)⟩
  · intro r hr hrs
    refine List.mem_map.2 ⟨r, hr, ?_⟩
    rw [callClearSuspect_clears (by rw [hrs]; exact optMem_true)]
  · intro r hr hrs
    exact List.mem_map.2 ⟨r, hr, callClearSuspect_eq_self (optMem_false_of_ne hrs)⟩

/-- Witness for C7: deleting suspect 5 of `exDB` clears the references of
clue 10, evidence 20, message 30 and call 40, and leaves the rows of
case 2 untouched. -/
theorem suspect_delete_set_null_witness :
    { clue10 with related_suspect := none } ∈ (deleteSuspect exDB 5).clues ∧
    { ev20 with related_suspect := none } ∈ (deleteSuspect exDB 5).evidences ∧
    { msg30 with related_suspect := none } ∈ (deleteSuspect exDB 5).messages ∧
    { call40 with related_suspect := none } ∈ (deleteSuspect exDB 5).calls ∧
    clue11 ∈ (deleteSuspect exDB 5).clues := by
  refine ⟨?_, ?_, ?_, ?_, ?_⟩
  · exact (suspect_delete_set_null exDB 5).2.1 clue10 (by decide) (by decide)
  · exact (suspect_delete_set_null exDB 5).2.2.2.1 ev20 (by decide) (by decide)
  · exact (suspect_delete_set_null exDB 5).2.2.2.2.2.1 msg30 (by decide)
      (by decide)
  · exact (suspect_delete_set_null exDB 5).2.2.2.2.2.2.2.1 call40 (by decide)
      (by decide)
  · exact (suspect_delete_set_null exDB 5).2.2.1 clue11 (by decide) (by decide)

/-- C2: deleting a Case removes the case row and, by the declared CASCADE
policies, every Location, Suspect, Clue, Evidence, Message and CallRecord
of that case, and transitively the Motives and Testimonies of every
Suspect of that case: no surviving row belongs to the deleted case, and
no surviving motive or testimony belongs to a suspect of the deleted
case. -/
theorem case_delete_cascades_all (db : DB) (cid : Nat) :
    (∀ k ∈ (deleteCase db cid).cases, k.id ≠ cid) ∧
    (∀ l ∈ (deleteCase db cid).locations, l.case_id ≠ cid) ∧
    (∀ s ∈ (deleteCase db cid).suspects, s.case_id ≠ cid) ∧
    (∀ c ∈ (deleteCase db cid).clues, c.case_id ≠ cid) ∧
    (∀ e ∈ (deleteCase db cid).evidences, e.case_id ≠ cid) ∧
    (∀ m ∈ (deleteCase db cid).messages, m.case_id ≠ cid) ∧
    (∀ r ∈ (deleteCase db cid).calls, r.case_id ≠ cid) ∧
    (∀ m ∈ (deleteCase db cid).motives, ∀ s ∈ db.suspects,
      s.case_id = cid → m.suspect ≠ s.id) ∧
    (∀ t ∈ (deleteCase db cid).testimonies, ∀ s ∈ db.suspects,
      s.case_id = cid → t.suspect ≠ s.id) := by
  refine ⟨?_, ?_, ?_, ?_, ?_, ?_, ?_, ?_, ?_⟩
  · intro k hk
    simp only [deleteCase] at hk
    have h1 := (List.mem_filter.1 hk).2
    simpa using h1
  · intro l hl
    simp only [deleteCase] at hl
    have h1 := (List.mem_filter.1 hl).2
    simpa using h1
  · intro s hs
    simp only [deleteCase] at hs
    have h1 := (List.mem_filter.1 hs).2
    simpa using h1
  · intro c hc
    simp only [deleteCase] at hc
    obtain ⟨c0, hc0, hfc⟩ := List.mem_map.1 hc
    have h1 := (List.mem_filter.1 (List.mem_filter.1 hc0).1).2
    rw [← hfc, clueClearSuspect_case_id]
    simpa using h1
  · intro e he
    simp only [deleteCase] at he
    obtain ⟨e1, he1, hf2⟩ := List.mem_map.1 he
    obtain ⟨e0, he0, hf1⟩ := List.mem_map.1 he1
    have h1 := (List.mem_filter.1 he0).2
    rw [← hf2, ← hf1, evidenceClearSuspect_case_id,
      evidenceClearLocation_case_id]
    simpa using h1
  · intro m hm
    simp only [deleteCase] at hm
    obtain ⟨m0, hm0, hfm⟩ := List.mem_map.1 hm
    have h1 := (List.mem_filter.1 hm0).2
    rw [← hfm, messageClearSuspect_case_id]
    simpa using h1
  · intro r hr
    simp only [deleteCase] at hr
    obtain ⟨r0, hr0, hfr⟩ := List.mem_map.1 hr
    have h1 := (List.mem_filter.1 hr0).2
    rw [← hfr, callClearSuspect_case_id]
    simpa using h1
  · intro m hm s hs hcase heq
    simp only [deleteCase] at hm
    have h2 := (List.mem_filter.1 hm).2
    have h3 : ((db.suspects.filter (fun s => s.case_id == cid)).map
        (fun s => s.id)).contains m.suspect = false := by
      simpa using h2
    have h4 : s.id ∈ (db.suspects.filter (fun s => s.case_id == cid)).map
        (fun s => s.id) :=
      List.mem_map.2 ⟨s, List.mem_filter.2 ⟨hs, by simp [hcase]⟩, rfl⟩
    rw [heq] at h3
    rw [(nat_contains_iff _ s.id).2 h4] at h3
    simp at h3
  · intro t ht s hs hcase heq
    simp only [deleteCase] at ht
    have h2 := (List.mem_filter.1 ht).2
    have h3 : ((db.suspects.filter (fun s => s.case_id == cid)).map
        (fun s => s.id)).contains t.suspect = false := by
      simpa using h2
    have h4 : s.id ∈ (db.suspects.filter (fun s => s.case_id == cid)).map
        (fun s => s.id) :=
      List.mem_map.2 ⟨s, List.mem_filter.2 ⟨hs, by simp [hcase]⟩, rfl⟩
    rw [heq] at h3
    rw [(nat_contains_iff _ s.id).2 h4] at h3
    simp at h3

/-- Witness for C2: deleting case 1 of `exDB` leaves only rows of case 2,
and the surviving motive 51 does not belong to suspect 5 (the suspect of
case 1). -/
theorem case_delete_cascades_all_witness :
    exCase2.id ≠ 1 ∧ loc2.case_id ≠ 1 ∧ mot51.suspect ≠ sus5.id := by
  refine ⟨?_, ?_, ?_⟩
  · exact (case_delete_cascades_all exDB 1).1 exCase2 (by decide)
  · exact (case_delete_cascades_all exDB 1).2.1 loc2 (by decide)
  · exact (case_delete_cascades_all exDB 1).2.2.2.2.2.2.2.1 mot51 (by decide)
      sus5 (by decide) (by decide)

/-- C6: for every Motive whose `motive_description` is present, the
textual rendering of `Motive.__str__` (models.py:174-176) is
"Motive for ", the suspect name, ": ", then the first
`min 50 (length of motive_description)` characters of
`motive_description` — exactly 50 characters of it whenever the stored
description has at least 50, regardless of the full stored length. -/
theorem motive_str_truncation (db : DB) (m : MotiveRow) (s : SuspectRow)
    (d : String) (hs : findSuspect db m.suspect = some s)
    (hd : m.motive_description = some d) :
    motive_str db m =
      some ("Motive for " ++ s.name ++ ": " ++ String.mk (d.data.take 50)) ∧
    (String.mk (d.data.take 50)).length = min 50 d.length ∧
    (50 ≤ d.length → (String.mk (d.data.take 50)).length = 50) := by
  refine ⟨by simp [motive_str, hs, hd], ?_, ?_⟩
  · show (d.data.take 50).length = min 50 d.length
    rw [List.length_take]
    rfl
  · intro h
    show (d.data.take 50).length = 50
    rw [List.length_take]
    exact Nat.min_eq_left h

/-- Witness for C6 at motive 50 of `exDB`. -/
theorem motive_str_truncation_witness :
    motive_str exDB mot50 =
      some ("Motive for " ++ sus5.name ++ ": " ++
        String.mk ("greed".data.take 50)) ∧
    (String.mk ("greed".data.take 50)).length = min 50 ("greed" : String).length ∧
    (50 ≤ ("greed" : String).length →
      (String.mk ("greed".data.take 50)).length = 50) :=
  motive_str_truncation exDB mot50 sus5 "greed" (by decide) (by decide)

/-- C10: the rendering of a Motive is total only when
`motive_description` is present: for every Motive whose description is
absent, `Motive.__str__` reaches its error branch (Python subscripts
`None`, raising `TypeError`) instead of producing a summary string. -/
theorem motive_str_none_description (db : DB) (m : MotiveRow)
    (hd : m.motive_description = none) :
    motive_str db m = none := by
  unfold motive_str
  rw [hd]
  cases findSuspect db m.suspect <;> rfl

/-- Witness for C10 at motive 52 of `exDB` (absent description). -/
theorem motive_str_none_description_witness :
    motive_str exDB mot52 = none :=
  motive_str_none_description exDB mot52 (by rfl)

/-- C8: with the timestamps of successive saves taken from a monotone
clock, a record created at `t` starts with `updated_at = created_at`;
`created_at` never changes afterwards, `updated_at` stays at least
`created_at`, and `updated_at` never decreases across successive
modifications (`auto_now_add` and `auto_now`, models.py:58-59). -/
theorem base_model_timestamps (t : Nat) (ts1 ts2 : List Nat)
    (h : List.Chain (· ≤ ·) t (ts1 ++ ts2)) :
    (createBase t).updated_at = (createBase t).created_at ∧
    (saveAll (createBase t) (ts1 ++ ts2)).created_at = t ∧
    t ≤ (saveAll (createBase t) (ts1 ++ ts2)).updated_at ∧
    (saveAll (createBase t) ts1).updated_at ≤
      (saveAll (createBase t) (ts1 ++ ts2)).updated_at := by
  refine ⟨rfl, ?_, ?_, ?_⟩
  · rw [saveAll_created_at]
    rfl
  · rw [saveAll_updated_at]
    exact le_getLastD h
  · rw [saveAll_updated_at, saveAll_updated_at]
    exact getLastD_append_mono t ts1 ts2 h

/-- Witness for C8 with creation at time 3 and saves at times 4, 4, 7. -/
theorem base_model_timestamps_witness :
    (createBase 3).updated_at = (createBase 3).created_at ∧
    (saveAll (createBase 3) ([4] ++ [4, 7])).created_at = 3 ∧
    3 ≤ (saveAll (createBase 3) ([4] ++ [4, 7])).updated_at ∧
    (saveAll (createBase 3) [4]).updated_at ≤
      (saveAll (createBase 3) ([4] ++ [4, 7])).updated_at :=
  base_model_timestamps 3 [4] [4, 7]
    (List.Chain.cons (by norm_num)
      (List.Chain.cons (by norm_num)
        (List.Chain.cons (by norm_num) List.Chain.nil)))
